import Mathlib

/-
Verification development for the tank-survival simulation core.

The embedding below is a shallow translation of the most feature-complete
prototype, `tank survival v5.py` (Tkinter variant with ammo boxes and the
machine gun).  Pure helpers become Lean functions; the mutable session
state of the `TankGame` object becomes an explicit `GState` record threaded
through every command; Tkinter callbacks become a step relation.  Python
floats used for the scavenge-chance computation are modelled by rationals;
Python `random.*` draws become explicit parameters of the commands, with
their ranges recorded as validity predicates on those parameters.
`self.destroy()` (called when the crew counter reaches zero) tears down the
Tk main loop, after which no callback can ever run again; this is modelled
by the `destroyed` flag, which every command checks first.
-/

namespace TankSurvival

/-- The sprite kinds placed in the outside views
(`Sprite.kind` in the source). -/
inductive Kind where
  | fuel
  | part
  | shell
  | zombie
  | ammo
deriving DecidableEq, Repr

/-- The three outside views `OUT_DRIVER`, `OUT_LEFT`, `OUT_RIGHT`. -/
inductive View where
  | outDriver
  | outLeft
  | outRight
deriving DecidableEq, Repr

/-- The reason a level started (`level.reason` strings in the source),
plus the initial empty value. -/
inductive Reason where
  | initial
  | breakdown
  | outOfFuel
  | manualStop
deriving DecidableEq, Repr

/-- The scavenge approach chosen in the dialog
(radio values "quick" / "moderate" / "greedy"). -/
inductive Approach where
  | quick
  | moderate
  | greedy
deriving DecidableEq, Repr

/-- `MG_AMMO_COST = 33`. -/
def MG_AMMO_COST : ℤ := 33

/-- `AMMO_PER_BOX = 100`. -/
def AMMO_PER_BOX : ℤ := 100

/-- `FUEL_CAN_MIN = 10`. -/
def FUEL_CAN_MIN : ℤ := 10

/-- `FUEL_CAN_MAX = 100`. -/
def FUEL_CAN_MAX : ℤ := 100

/-- `ZOMBIE_PENALTY_PER_ZOMBIE = 0.05`. -/
def ZOMBIE_PENALTY_PER_ZOMBIE : ℚ := 5 / 100

/-- `GUN_BONUS = 0.15`. -/
def GUN_BONUS : ℚ := 15 / 100

/-- `CHANCE_MIN = 0.05`. -/
def CHANCE_MIN : ℚ := 5 / 100

/-- `CHANCE_MAX = 0.95`. -/
def CHANCE_MAX : ℚ := 95 / 100

/-- `TankGame._clamp(x, lo, hi) = max(lo, min(hi, x))`. -/
def clampQ (x lo hi : ℚ) : ℚ := max lo (min hi x)

/-- Number of sprites of a given kind in one view's sprite list. -/
def countK (k : Kind) : List Kind → ℕ
  | [] => 0
  | x :: xs => (if x = k then 1 else 0) + countK k xs

/-- The three per-view sprite lists `sprites_by_view`
(positions abstracted away; only the kinds matter for the core logic). -/
structure SpriteMap where
  outDriver : List Kind
  outLeft : List Kind
  outRight : List Kind
deriving DecidableEq, Repr

/-- The sprite list of one view. -/
def SpriteMap.view (m : SpriteMap) : View → List Kind
  | .outDriver => m.outDriver
  | .outLeft => m.outLeft
  | .outRight => m.outRight

/-- Append a freshly placed sprite to the chosen view
(the body of `place` in `_populate_outside_sprites`). -/
def addSprite (m : SpriteMap) (v : View) (k : Kind) : SpriteMap :=
  match v with
  | .outDriver => { m with outDriver := m.outDriver ++ [k] }
  | .outLeft => { m with outLeft := m.outLeft ++ [k] }
  | .outRight => { m with outRight := m.outRight ++ [k] }

/-- `place(kind, n)`: put `n` sprites of kind `k`, each into the view chosen
by the random stream `vs` (consumed from index `i` on). -/
def placeCount (k : Kind) (vs : ℕ → View) : ℕ → ℕ → SpriteMap → SpriteMap
  | _, 0, m => m
  | i, n + 1, m => placeCount k vs (i + 1) n (addSprite m (vs i) k)

/-- Replace the sprite list of one view. -/
def SpriteMap.setView (m : SpriteMap) (v : View) (l : List Kind) : SpriteMap :=
  match v with
  | .outDriver => { m with outDriver := l }
  | .outLeft => { m with outLeft := l }
  | .outRight => { m with outRight := l }

/-- `_count_remaining_items` for one kind: sprites of that kind summed over
the three outside views. -/
def countAll (k : Kind) (m : SpriteMap) : ℕ :=
  countK k m.outDriver + countK k m.outLeft + countK k m.outRight

/-- One view's leg of `_remove_items_from_map`: the while loop deletes
sprites of kind `k` front to back until `n` removals happened or the list is
exhausted; returns the new list and the removals still owed. -/
def removeKindN (k : Kind) : List Kind → ℕ → List Kind × ℕ
  | l, 0 => (l, 0)
  | [], n + 1 => ([], n + 1)
  | x :: xs, n + 1 =>
    if x = k then removeKindN k xs n
    else
      let p := removeKindN k xs (n + 1)
      (x :: p.1, p.2)

/-- `_remove_items_from_map(kind, n)`: remove up to `n` sprites of the kind,
scanning `OUT_DRIVER`, then `OUT_LEFT`, then `OUT_RIGHT`. -/
def remove_items_from_map (k : Kind) (n : ℕ) (m : SpriteMap) : SpriteMap :=
  let d := removeKindN k m.outDriver n
  let l := removeKindN k m.outLeft d.2
  let r := removeKindN k m.outRight l.2
  ⟨d.1, l.1, r.1⟩

/-- Base return chance per approach (`0.75` / `0.50` / `0.33`). -/
def scavBase : Approach → ℚ
  | .quick => 75 / 100
  | .moderate => 50 / 100
  | .greedy => 33 / 100

/-- Maximal loot fraction per approach (`1/3` / `0.50` / `1.00`). -/
def scavMaxFrac : Approach → ℚ
  | .quick => 1 / 3
  | .moderate => 1 / 2
  | .greedy => 1

/-- The survival chance computed step by step in `_resolve_scavenge`:
start from the base, subtract the zombie penalty per remaining
`level.zombies`, add the gun bonus when a gun is given and available, then
clamp. -/
def scavChance (approach : Approach) (zombies : ℤ) (give_gun : Bool)
    (guns : ℤ) : ℚ :=
  let chance := scavBase approach
  let chance := chance - (zombies : ℚ) * ZOMBIE_PENALTY_PER_ZOMBIE
  let chance := if give_gun ∧ 0 < guns then chance + GUN_BONUS else chance
  clampQ chance CHANCE_MIN CHANCE_MAX

/-- The chance formula exactly as the specification words it:
`clamp(base - zombiesRemaining * 0.05 + (0.15 if gun committed and guns
available else 0), 0.05, 0.95)`.  Stated separately from `scavChance` so
that the code's computation can be compared against the spec's formula. -/
def specChanceFormula (approach : Approach) (zombies : ℤ) (give_gun : Bool)
    (guns : ℤ) : ℚ :=
  clampQ (scavBase approach - (zombies : ℚ) * (5 / 100) +
    (if give_gun ∧ 0 < guns then 15 / 100 else 0)) (5 / 100) (95 / 100)

/-- The mutable session state of `TankGame` (ledger counters, drive/level
flags, the per-level pool counters of `LevelState`, and the sprite lists).
`destroyed` models the Tk root being destroyed on game over: once set, the
main loop is gone and no callback can fire, so every command below returns
the state unchanged. -/
structure GState where
  fuel : ℤ
  parts : ℤ
  shells : ℤ
  guns : ℤ
  crew : ℤ
  ammo : ℤ
  driving : Bool
  engine_broken : Bool
  out_of_fuel : Bool
  level_active : Bool
  level_reason : Reason
  level_fuel_cans : ℤ
  level_parts : ℤ
  level_shells : ℤ
  level_zombies : ℤ
  level_ammo_boxes : ℤ
  sprites : SpriteMap
  destroyed : Bool
deriving DecidableEq, Repr

/-- The state built in `TankGame.__init__` (STARTING_* constants;
driving, nothing broken, no level). -/
def initState : GState where
  fuel := 200
  parts := 0
  shells := 6
  guns := 4
  crew := 4
  ammo := 200
  driving := true
  engine_broken := false
  out_of_fuel := false
  level_active := false
  level_reason := .initial
  level_fuel_cans := 0
  level_parts := 0
  level_shells := 0
  level_zombies := 0
  level_ammo_boxes := 0
  sprites := ⟨[], [], []⟩
  destroyed := false

/-- The random draws consumed by `_start_level`: the five `randint` results
for the pool counters and the stream of `random.choice` view picks used by
`_populate_outside_sprites`. -/
structure LevelRng where
  rParts : ℤ
  rFuelCans : ℤ
  rShells : ℤ
  rZombies : ℤ
  rAmmoBoxes : ℤ
  vs : ℕ → View

/-- The ranges of the `randint` calls in `_start_level`:
parts 1..3, fuel cans 1..3, shells 0..3, zombies 1..6, ammo boxes 1..2. -/
def validLevelRng (r : LevelRng) : Prop :=
  1 ≤ r.rParts ∧ r.rParts ≤ 3 ∧ 1 ≤ r.rFuelCans ∧ r.rFuelCans ≤ 3 ∧
  0 ≤ r.rShells ∧ r.rShells ≤ 3 ∧ 1 ≤ r.rZombies ∧ r.rZombies ≤ 6 ∧
  1 ≤ r.rAmmoBoxes ∧ r.rAmmoBoxes ≤ 2

/-- `_populate_outside_sprites`: clear all views, then place the pool
counters' worth of sprites, kind by kind in source order, each sprite into
a uniformly chosen view. -/
def populate_outside_sprites (r : LevelRng) : SpriteMap :=
  let np := (max 1 r.rParts).toNat
  let nf := r.rFuelCans.toNat
  let ns := r.rShells.toNat
  let nz := r.rZombies.toNat
  let na := r.rAmmoBoxes.toNat
  let m := placeCount .part r.vs 0 np ⟨[], [], []⟩
  let m := placeCount .fuel r.vs np nf m
  let m := placeCount .shell r.vs (np + nf) ns m
  let m := placeCount .zombie r.vs (np + nf + ns) nz m
  placeCount .ammo r.vs (np + nf + ns + nz) na m

/-- `_start_level(reason)`: stop driving, activate the level, set
`engine_broken` / `out_of_fuel` from the reason, roll the pool counters
(parts floored at 1) and scatter the sprites. -/
def start_level (reason : Reason) (r : LevelRng) (s : GState) : GState :=
  { s with
    driving := false
    level_active := true
    level_reason := reason
    engine_broken := decide (reason = Reason.breakdown)
    out_of_fuel := decide (reason = Reason.outOfFuel)
    level_parts := max 1 r.rParts
    level_fuel_cans := r.rFuelCans
    level_shells := r.rShells
    level_zombies := r.rZombies
    level_ammo_boxes := r.rAmmoBoxes
    sprites := populate_outside_sprites r }

/-- `_fuel_tick`: while driving, burn one fuel unit per tick; at zero,
clamp to zero and trigger the out-of-fuel level. -/
def fuel_tick (r : LevelRng) (s : GState) : GState :=
  if s.destroyed then s
  else if ¬ s.driving then s
  else
    let f := s.fuel - 1
    if f ≤ 0 then start_level .outOfFuel r { s with fuel := 0 }
    else { s with fuel := f }

/-- `_driver_stop`: ignored unless driving; otherwise starts a
manual-stop level immediately. -/
def driver_stop (r : LevelRng) (s : GState) : GState :=
  if s.destroyed then s
  else if ¬ s.driving then s
  else start_level .manualStop r s

/-- `_trigger_breakdown_level`, fired by the randomized breakdown timer:
ignored unless driving; otherwise starts a breakdown level. -/
def breakdownFire (r : LevelRng) (s : GState) : GState :=
  if s.destroyed then s
  else if ¬ s.driving then s
  else start_level .breakdown r s

/-- `_driver_start`: rejected while driving, while the engine is broken,
or on an out-of-fuel level with no fuel; on success
`_start_timers_for_driving` resumes driving and clears the level flags. -/
def driver_start (s : GState) : GState :=
  if s.destroyed then s
  else if s.driving then s
  else if s.engine_broken then s
  else if s.out_of_fuel ∧ s.fuel ≤ 0 then s
  else
    { s with
      driving := true
      level_active := false
      engine_broken := false
      out_of_fuel := false }

/-- `_fix_engine`: needs an active level, a broken engine and at least one
part; then debits one part and clears `engine_broken` (driving is not
resumed). -/
def fix_engine (s : GState) : GState :=
  if s.destroyed then s
  else if ¬ s.level_active then s
  else if ¬ s.engine_broken then s
  else if s.parts ≤ 0 then s
  else { s with parts := s.parts - 1, engine_broken := false }

/-- The zombie-hit scan of `_on_canvas_click`: walk the sprite list from
the topmost (last) index down, returning the first index that is a zombie
and is hit by the click (the geometric rectangle test is abstracted into
the `hit` predicate). -/
def findClickedZombie (sprites : List Kind) (hit : ℕ → Bool) : Option ℕ :=
  (List.range sprites.length).reverse.find? fun i =>
    decide (sprites.getD i Kind.part = Kind.zombie) && hit i

/-- `_on_canvas_click` in outside view `v`: find a clicked zombie; in
`OUT_DRIVER` any click is a machine-gun burst (33 ammo); in the gunner
views button 1 is the cannon (1 shell) and button 3 the machine gun.
On success the zombie sprite is deleted.  `level.zombies` is not
touched by this handler in the source. -/
def on_canvas_click (v : View) (button : ℕ) (hit : ℕ → Bool)
    (s : GState) : GState :=
  if s.destroyed then s
  else if ¬ s.level_active then s
  else
    let sprites := s.sprites.view v
    match findClickedZombie sprites hit with
    | none => s
    | some i =>
      let killed := s.sprites.setView v (sprites.eraseIdx i)
      match v with
      | .outDriver =>
        if s.ammo < MG_AMMO_COST then s
        else { s with ammo := s.ammo - MG_AMMO_COST, sprites := killed }
      | _ =>
        if button = 1 then
          if s.shells ≤ 0 then s
          else { s with shells := s.shells - 1, sprites := killed }
        else if button = 3 then
          if s.ammo < MG_AMMO_COST then s
          else { s with ammo := s.ammo - MG_AMMO_COST, sprites := killed }
        else s

/-- The random draws consumed by `_resolve_scavenge`: the survival roll,
the loot-fraction roll, the index behind the `random.choice` pity pick,
and the per-can fuel yields. -/
structure ScavDraws where
  draw : ℚ
  frac0 : ℚ
  pickIdx : ℕ
  yields : ℕ → ℤ

/-- Ranges of the scavenge draws: `random.random()` lies in `[0, 1)` and
each fuel-can yield is `randint(FUEL_CAN_MIN, FUEL_CAN_MAX)`. -/
def validScavDraws (d : ScavDraws) : Prop :=
  0 ≤ d.draw ∧ d.draw < 1 ∧ 0 ≤ d.frac0 ∧ d.frac0 < 1 ∧
  ∀ i, FUEL_CAN_MIN ≤ d.yields i ∧ d.yields i ≤ FUEL_CAN_MAX

/-- The loot quantities of the survival branch of `_resolve_scavenge`:
`frac = random.random() * max_frac`, `got_k = int(avail_k * frac)` per
kind, with the pity pick granting a single item of a stocked kind when
everything rounded down to zero while the pool is non-empty.
Returned as (parts, shells, fuel cans, ammo boxes). -/
def pityChoices (ap as' af aa : ℕ) : List Kind :=
  (if 0 < ap then [Kind.part] else []) ++
  (if 0 < as' then [Kind.shell] else []) ++
  (if 0 < af then [Kind.fuel] else []) ++
  (if 0 < aa then [Kind.ammo] else [])

/-- The `random.choice(choices)` pity pick, parametrized by the index of
the chosen element. -/
def pityPick (ap as' af aa ix : ℕ) : Kind :=
  (pityChoices ap as' af aa).getD (ix % (pityChoices ap as' af aa).length)
    Kind.part

def gotCounts (approach : Approach) (frac0 : ℚ) (pickIdx : ℕ)
    (m : SpriteMap) : ℕ × ℕ × ℕ × ℕ :=
  let frac := frac0 * scavMaxFrac approach
  let ap := countAll .part m
  let as' := countAll .shell m
  let af := countAll .fuel m
  let aa := countAll .ammo m
  let gp := ⌊(ap : ℚ) * frac⌋₊
  let gs := ⌊(as' : ℚ) * frac⌋₊
  let gf := ⌊(af : ℚ) * frac⌋₊
  let ga := ⌊(aa : ℚ) * frac⌋₊
  if gp + gs + gf + ga = 0 ∧ 0 < ap + as' + af + aa then
    match pityPick ap as' af aa pickIdx with
    | .part => (1, 0, 0, 0)
    | .shell => (0, 1, 0, 0)
    | .fuel => (0, 0, 1, 0)
    | _ => (0, 0, 0, 1)
  else (gp, gs, gf, ga)

/-- `_resolve_scavenge(approach, give_gun)`: compute the chance, commit a
gun when requested and available, roll survival.  On death debit one crew
member and destroy the session at zero crew.  On survival refund the gun,
compute the loot counts, credit the yields to the ledger and delete the
collected sprites. -/
def resolve_scavenge (approach : Approach) (give_gun : Bool) (d : ScavDraws)
    (s : GState) : GState :=
  let chance := scavChance approach s.level_zombies give_gun s.guns
  let s1 := if give_gun ∧ 0 < s.guns then { s with guns := s.guns - 1 } else s
  if d.draw < chance then
    let s2 :=
      if give_gun ∧ 0 < s.guns then { s1 with guns := s1.guns + 1 } else s1
    let g := gotCounts approach d.frac0 d.pickIdx s.sprites
    let gp := g.1
    let gs := g.2.1
    let gf := g.2.2.1
    let ga := g.2.2.2
    let fuel_gained := ((List.range gf).map d.yields).sum
    let ammo_gained := (ga : ℤ) * AMMO_PER_BOX
    let s3 :=
      { s2 with
        parts := s2.parts + gp
        shells := s2.shells + gs
        fuel := s2.fuel + fuel_gained
        ammo := s2.ammo + ammo_gained }
    { s3 with
      sprites :=
        remove_items_from_map .ammo ga
          (remove_items_from_map .fuel gf
            (remove_items_from_map .shell gs
              (remove_items_from_map .part gp s3.sprites))) }
  else
    let s2 := { s1 with crew := s1.crew - 1 }
    if s2.crew ≤ 0 then { s2 with destroyed := true } else s2

/-- The scavenge command as the player reaches it: the guards of
`_open_scavenge_dialog` (an active level and at least one crew member)
followed by `_resolve_scavenge`. -/
def scavenge_command (approach : Approach) (give_gun : Bool) (d : ScavDraws)
    (s : GState) : GState :=
  if s.destroyed then s
  else if ¬ s.level_active then s
  else if s.crew ≤ 0 then s
  else resolve_scavenge approach give_gun d s

/-- One event of the session: a fuel tick, the breakdown timer, or one of
the player commands, each with its random draws constrained to the ranges
the source draws them from. -/
inductive Step : GState → GState → Prop where
  | tick (s : GState) (r : LevelRng) (hr : validLevelRng r) :
      Step s (fuel_tick r s)
  | stop (s : GState) (r : LevelRng) (hr : validLevelRng r) :
      Step s (driver_stop r s)
  | breakdown (s : GState) (r : LevelRng) (hr : validLevelRng r) :
      Step s (breakdownFire r s)
  | start (s : GState) : Step s (driver_start s)
  | fixEngineStep (s : GState) : Step s (fix_engine s)
  | shoot (s : GState) (v : View) (button : ℕ) (hit : ℕ → Bool) :
      Step s (on_canvas_click v button hit s)
  | scav (s : GState) (approach : Approach) (give_gun : Bool)
      (d : ScavDraws) (hd : validScavDraws d) :
      Step s (scavenge_command approach give_gun d s)

/-- States reachable from the freshly constructed game. -/
def Reachable (s : GState) : Prop :=
  Relation.ReflTransGen Step initState s

/-- A fixed valid set of level draws, used for concrete executions:
pool parts 1, fuel cans 1, shells 0, zombies 1, ammo boxes 1, every sprite
placed in the left gunner view. -/
def tickRng : LevelRng :=
  ⟨1, 1, 0, 1, 1, fun _ => View.outLeft⟩

/-- Concrete scavenge draws with a survival roll of 0.99 (always above the
clamped chance, so the scavenger dies). -/
def failDraws : ScavDraws :=
  ⟨99 / 100, 0, 0, fun _ => 10⟩

/-- Concrete scavenge draws with a survival roll of 0 (always below the
clamped chance, so the scavenger survives) and a loot-fraction roll of
one half. -/
def luckyDraws : ScavDraws :=
  ⟨0, 1 / 2, 0, fun _ => 10⟩

/-- The state right after a manual stop from the fresh game: a manual-stop
level with one zombie, pool sprites `part`, `fuel`, `zombie`, `ammo` all in
the left gunner view. -/
def stoppedState : GState :=
  driver_stop tickRng initState

/-- A concrete mid-level state (Breakdown level, broken engine, one part
in the ledger) used to exercise the engine repair. -/
def breakdownState : GState where
  fuel := 50
  parts := 1
  shells := 3
  guns := 2
  crew := 3
  ammo := 100
  driving := false
  engine_broken := true
  out_of_fuel := false
  level_active := true
  level_reason := .breakdown
  level_fuel_cans := 1
  level_parts := 1
  level_shells := 0
  level_zombies := 2
  level_ammo_boxes := 1
  sprites := ⟨[.fuel], [.part, .zombie], [.ammo, .zombie]⟩
  destroyed := false

/-- `breakdownState` with an empty parts ledger (Scenario B of the spec). -/
def breakdownNoParts : GState :=
  { breakdownState with parts := 0 }

/-- A concrete mid-level state with no guns left, used to exercise the
silent gun-commitment fallback. -/
def gunlessState : GState :=
  { breakdownState with
    guns := 0
    engine_broken := false
    level_reason := .manualStop }

/-- A concrete mid-level state with empty pockets (no shells, no ammo, no
parts), used to exercise the debit rejections. -/
def brokeState : GState :=
  { breakdownState with parts := 0, shells := 0, ammo := 10 }

/-- A concrete mid-level state whose crew is already gone. -/
def deadState : GState :=
  { breakdownState with crew := 0, destroyed := true }

/-- Second to fifth states of a concrete doomed run: four scavenges with a
0.99 survival roll from `stoppedState`, losing the whole crew of four. -/
def gs2 : GState := scavenge_command .quick false failDraws stoppedState

def gs3 : GState := scavenge_command .quick false failDraws gs2

def gs4 : GState := scavenge_command .quick false failDraws gs3

def gs5 : GState := scavenge_command .quick false failDraws gs4

/-- The state after shooting the zombie visible in the left gunner view of
`stoppedState` with the cannon. -/
def c1After : GState :=
  on_canvas_click .outLeft 1 (fun _ => true) stoppedState

/-- The ledger counters are never negative. -/
def LedgerOk (s : GState) : Prop :=
  0 ≤ s.fuel ∧ 0 ≤ s.shells ∧ 0 ≤ s.guns ∧ 0 ≤ s.crew ∧ 0 ≤ s.parts ∧
  0 ≤ s.ammo

/-- The inductive invariant of the session: non-negative ledger, fuel in
the tank while driving, the out-of-fuel flag raised whenever fuel is zero,
and the session destroyed whenever crew is zero. -/
def Inv (s : GState) : Prop :=
  LedgerOk s ∧ (s.driving = true → 1 ≤ s.fuel) ∧
  (s.fuel = 0 → s.out_of_fuel = true) ∧ (s.crew = 0 → s.destroyed = true)

lemma le_clampQ (x lo hi : ℚ) : lo ≤ clampQ x lo hi :=
  le_max_left _ _

lemma clampQ_le (x lo hi : ℚ) (h : lo ≤ hi) : clampQ x lo hi ≤ hi :=
  max_le h (min_le_left _ _)

lemma countK_cons (k x : Kind) (xs : List Kind) :
    countK k (x :: xs) = (if x = k then 1 else 0) + countK k xs :=
  rfl

lemma countK_append (k : Kind) (l1 l2 : List Kind) :
    countK k (l1 ++ l2) = countK k l1 + countK k l2 := by
  induction l1 with
  | nil => simp [countK]
  | cons x xs ih =>
    rw [List.cons_append, countK_cons, countK_cons, ih]
    omega

lemma countAll_addSprite (k kp : Kind) (v : View) (m : SpriteMap) :
    countAll kp (addSprite m v k) =
      countAll kp m + (if kp = k then 1 else 0) := by
  have hx : countK kp [k] = (if kp = k then 1 else 0) := by
    rw [countK_cons]
    by_cases h : kp = k
    · rw [if_pos h.symm, if_pos h]
      rfl
    · rw [if_neg (fun hh => h hh.symm), if_neg h]
      rfl
  cases v <;>
    simp only [addSprite, countAll, countK_append, hx] <;>
    omega

lemma countAll_placeCount (k kp : Kind) (vs : ℕ → View) :
    ∀ (n i : ℕ) (m : SpriteMap),
      countAll kp (placeCount k vs i n m) =
        countAll kp m + (if kp = k then n else 0) := by
  intro n
  induction n with
  | zero => intro i m; simp [placeCount]
  | succ n ih =>
    intro i m
    rw [placeCount, ih, countAll_addSprite]
    split <;> omega

lemma removeKindN_nil (k : Kind) (n : ℕ) : removeKindN k [] n = ([], n) := by
  cases n <;> rfl

lemma removeKindN_zero (k : Kind) (l : List Kind) :
    removeKindN k l 0 = (l, 0) := by
  cases l <;> rfl

lemma removeKindN_cons_succ (k x : Kind) (xs : List Kind) (n : ℕ) :
    removeKindN k (x :: xs) (n + 1) =
      if x = k then removeKindN k xs n
      else ((x :: (removeKindN k xs (n + 1)).1), (removeKindN k xs (n + 1)).2) :=
  rfl

lemma removeKindN_self (k : Kind) :
    ∀ (l : List Kind) (n : ℕ),
      countK k (removeKindN k l n).1 = countK k l - min n (countK k l) ∧
      (removeKindN k l n).2 = n - min n (countK k l) := by
  intro l
  induction l with
  | nil => intro n; rw [removeKindN_nil]; simp [countK]
  | cons x xs ih =>
    intro n
    cases n with
    | zero => rw [removeKindN_zero]; simp
    | succ n =>
      rw [removeKindN_cons_succ]
      split
      · rename_i h
        have hx := ih n
        rw [countK_cons, if_pos h]
        omega
      · rename_i h
        have hx := ih (n + 1)
        rw [countK_cons, if_neg h, countK_cons, if_neg h]
        omega

lemma removeKindN_other (k kp : Kind) (hk : kp ≠ k) :
    ∀ (l : List Kind) (n : ℕ),
      countK kp (removeKindN k l n).1 = countK kp l := by
  intro l
  induction l with
  | nil => intro n; rw [removeKindN_nil]
  | cons x xs ih =>
    intro n
    cases n with
    | zero => rw [removeKindN_zero]
    | succ n =>
      rw [removeKindN_cons_succ]
      split
      · rename_i h
        rw [ih n, countK_cons, h, if_neg (fun hh => hk hh.symm)]
        omega
      · rw [countK_cons, countK_cons, ih (n + 1)]

lemma remove_items_self (k : Kind) (n : ℕ) (m : SpriteMap) :
    countAll k (remove_items_from_map k n m) =
      countAll k m - min n (countAll k m) := by
  unfold remove_items_from_map countAll
  obtain ⟨h1, h2⟩ := removeKindN_self k m.outDriver n
  obtain ⟨h3, h4⟩ := removeKindN_self k m.outLeft (removeKindN k m.outDriver n).2
  obtain ⟨h5, _⟩ :=
    removeKindN_self k m.outRight
      (removeKindN k m.outLeft (removeKindN k m.outDriver n).2).2
  simp only at h1 h2 h3 h4 h5 ⊢
  omega

lemma remove_items_other (k kp : Kind) (hk : kp ≠ k) (n : ℕ) (m : SpriteMap) :
    countAll kp (remove_items_from_map k n m) = countAll kp m := by
  unfold remove_items_from_map countAll
  simp only [removeKindN_other k kp hk]

lemma remove_items_exact (k : Kind) (n : ℕ) (m : SpriteMap)
    (h : n ≤ countAll k m) :
    countAll k (remove_items_from_map k n m) = countAll k m - n := by
  rw [remove_items_self]
  omega

lemma scavMaxFrac_nonneg (a : Approach) : 0 ≤ scavMaxFrac a := by
  cases a <;> norm_num [scavMaxFrac]

lemma scavMaxFrac_le_one (a : Approach) : scavMaxFrac a ≤ 1 := by
  cases a <;> norm_num [scavMaxFrac]

lemma getD_mod_mem {l : List Kind} (hl : 0 < l.length) (i : ℕ) (d : Kind) :
    l.getD (i % l.length) d ∈ l := by
  have hlt : i % l.length < l.length := Nat.mod_lt _ hl
  rw [List.getD_eq_getElem l d hlt]
  exact List.getElem_mem hlt

lemma pityChoices_len {ap as' af aa : ℕ} (hpos : 0 < ap + as' + af + aa) :
    0 < (pityChoices ap as' af aa).length := by
  unfold pityChoices
  simp only [List.length_append]
  split_ifs <;> simp_all

lemma mem_pityChoices {ap as' af aa : ℕ} {x : Kind}
    (h : x ∈ pityChoices ap as' af aa) :
    (x = Kind.part ∧ 0 < ap) ∨ (x = Kind.shell ∧ 0 < as') ∨
    (x = Kind.fuel ∧ 0 < af) ∨ (x = Kind.ammo ∧ 0 < aa) := by
  unfold pityChoices at h
  split_ifs at h <;> simp_all

lemma pityPick_cases {ap as' af aa : ℕ} (ix : ℕ)
    (hpos : 0 < ap + as' + af + aa) :
    (pityPick ap as' af aa ix = Kind.part ∧ 0 < ap) ∨
    (pityPick ap as' af aa ix = Kind.shell ∧ 0 < as') ∨
    (pityPick ap as' af aa ix = Kind.fuel ∧ 0 < af) ∨
    (pityPick ap as' af aa ix = Kind.ammo ∧ 0 < aa) :=
  mem_pityChoices (getD_mod_mem (pityChoices_len hpos) ix Kind.part)

lemma gotCounts_le (a : Approach) (fr : ℚ) (ix : ℕ) (m : SpriteMap)
    (h0 : 0 ≤ fr) (h1 : fr < 1) :
    (gotCounts a fr ix m).1 ≤ countAll .part m ∧
    (gotCounts a fr ix m).2.1 ≤ countAll .shell m ∧
    (gotCounts a fr ix m).2.2.1 ≤ countAll .fuel m ∧
    (gotCounts a fr ix m).2.2.2 ≤ countAll .ammo m := by
  have hfrac1 : fr * scavMaxFrac a ≤ 1 :=
    le_trans (mul_le_of_le_one_right h0 (scavMaxFrac_le_one a)) (le_of_lt h1)
  have floorle : ∀ c : ℕ, ⌊(c : ℚ) * (fr * scavMaxFrac a)⌋₊ ≤ c := by
    intro c
    calc ⌊(c : ℚ) * (fr * scavMaxFrac a)⌋₊
        ≤ ⌊(c : ℚ)⌋₊ :=
          Nat.floor_mono (mul_le_of_le_one_right (Nat.cast_nonneg c) hfrac1)
      _ = c := Nat.floor_natCast c
  simp only [gotCounts]
  split
  · rename_i hcond
    have hm := pityPick_cases ix hcond.2
    rcases hm with ⟨hx, hp⟩ | ⟨hx, hp⟩ | ⟨hx, hp⟩ | ⟨hx, hp⟩ <;> rw [hx]
    · exact ⟨hp, Nat.zero_le _, Nat.zero_le _, Nat.zero_le _⟩
    · exact ⟨Nat.zero_le _, hp, Nat.zero_le _, Nat.zero_le _⟩
    · exact ⟨Nat.zero_le _, Nat.zero_le _, hp, Nat.zero_le _⟩
    · exact ⟨Nat.zero_le _, Nat.zero_le _, Nat.zero_le _, hp⟩
  · exact ⟨floorle _, floorle _, floorle _, floorle _⟩

lemma fuelGained_nonneg (yields : ℕ → ℤ) (hy : ∀ i, FUEL_CAN_MIN ≤ yields i)
    (n : ℕ) : 0 ≤ ((List.range n).map yields).sum := by
  apply List.sum_nonneg
  intro x hx
  rcases List.mem_map.mp hx with ⟨i, _, rfl⟩
  have := hy i
  norm_num [FUEL_CAN_MIN] at this
  omega

lemma resolve_scavenge_die (a : Approach) (g : Bool) (d : ScavDraws)
    (s : GState) (h : ¬ d.draw < scavChance a s.level_zombies g s.guns) :
    resolve_scavenge a g d s =
      if s.crew - 1 ≤ 0 then
        { s with
          guns := if g ∧ 0 < s.guns then s.guns - 1 else s.guns
          crew := s.crew - 1
          destroyed := true }
      else
        { s with
          guns := if g ∧ 0 < s.guns then s.guns - 1 else s.guns
          crew := s.crew - 1 } := by
  simp only [resolve_scavenge]
  rw [if_neg h]
  by_cases hg : g ∧ 0 < s.guns
  · simp only [if_pos hg]
    try simp
  · simp only [if_neg hg]
    try simp

lemma resolve_scavenge_survive (a : Approach) (g : Bool) (d : ScavDraws)
    (s : GState) (h : d.draw < scavChance a s.level_zombies g s.guns) :
    resolve_scavenge a g d s =
      { s with
        parts := s.parts + ((gotCounts a d.frac0 d.pickIdx s.sprites).1 : ℤ)
        shells :=
          s.shells + ((gotCounts a d.frac0 d.pickIdx s.sprites).2.1 : ℤ)
        fuel := s.fuel +
          ((List.range (gotCounts a d.frac0 d.pickIdx s.sprites).2.2.1).map
            d.yields).sum
        ammo := s.ammo +
          ((gotCounts a d.frac0 d.pickIdx s.sprites).2.2.2 : ℤ) * AMMO_PER_BOX
        sprites :=
          remove_items_from_map .ammo
            (gotCounts a d.frac0 d.pickIdx s.sprites).2.2.2
            (remove_items_from_map .fuel
              (gotCounts a d.frac0 d.pickIdx s.sprites).2.2.1
              (remove_items_from_map .shell
                (gotCounts a d.frac0 d.pickIdx s.sprites).2.1
                (remove_items_from_map .part
                  (gotCounts a d.frac0 d.pickIdx s.sprites).1 s.sprites))) } := by
  simp only [resolve_scavenge]
  rw [if_pos h]
  by_cases hg : g ∧ 0 < s.guns
  · simp only [if_pos hg]
    try simp [Int.sub_add_cancel]
  · simp only [if_neg hg]
    try simp

lemma inv_start_level (reason : Reason) (r : LevelRng) (s : GState)
    (hL : LedgerOk s) (hcrew : s.crew = 0 → s.destroyed = true)
    (hf : reason = Reason.outOfFuel ∨ 1 ≤ s.fuel) :
    Inv (start_level reason r s) := by
  obtain ⟨h1, h2, h3, h4, h5, h6⟩ := hL
  refine ⟨⟨h1, h2, h3, h4, h5, h6⟩, ?_, ?_, hcrew⟩
  · intro hdr
    simp [start_level] at hdr
  · intro hfz
    simp only [start_level] at hfz ⊢
    rcases hf with rfl | hge
    · decide
    · exact absurd hfz (by omega)

lemma inv_fuel_tick (r : LevelRng) (s : GState) (h : Inv s) :
    Inv (fuel_tick r s) := by
  obtain ⟨⟨h1, h2, h3, h4, h5, h6⟩, hd, hz, hcrew⟩ := h
  simp only [fuel_tick]
  split_ifs with hdes hndr hf0
  · exact ⟨⟨h1, h2, h3, h4, h5, h6⟩, hd, hz, hcrew⟩
  · exact inv_start_level _ r _ ⟨le_refl 0, h2, h3, h4, h5, h6⟩ hcrew
      (Or.inl rfl)
  · refine ⟨⟨by simp only; omega, h2, h3, h4, h5, h6⟩, ?_, ?_, hcrew⟩
    · intro _
      simp only
      omega
    · intro hfz
      simp only at hfz
      omega
  · exact ⟨⟨h1, h2, h3, h4, h5, h6⟩, hd, hz, hcrew⟩

lemma inv_driver_stop (r : LevelRng) (s : GState) (h : Inv s) :
    Inv (driver_stop r s) := by
  obtain ⟨hL, hd, hz, hcrew⟩ := h
  unfold driver_stop
  split_ifs with hdes hndr
  · exact ⟨hL, hd, hz, hcrew⟩
  · exact inv_start_level _ r _ hL hcrew (Or.inr (hd hndr))
  · exact ⟨hL, hd, hz, hcrew⟩

lemma inv_breakdownFire (r : LevelRng) (s : GState) (h : Inv s) :
    Inv (breakdownFire r s) := by
  obtain ⟨hL, hd, hz, hcrew⟩ := h
  unfold breakdownFire
  split_ifs with hdes hndr
  · exact ⟨hL, hd, hz, hcrew⟩
  · exact inv_start_level _ r _ hL hcrew (Or.inr (hd hndr))
  · exact ⟨hL, hd, hz, hcrew⟩

lemma inv_driver_start (s : GState) (h : Inv s) : Inv (driver_start s) := by
  obtain ⟨⟨h1, h2, h3, h4, h5, h6⟩, hd, hz, hcrew⟩ := h
  unfold driver_start
  split_ifs with hdes hdr heb hof
  · exact ⟨⟨h1, h2, h3, h4, h5, h6⟩, hd, hz, hcrew⟩
  · exact ⟨⟨h1, h2, h3, h4, h5, h6⟩, hd, hz, hcrew⟩
  · exact ⟨⟨h1, h2, h3, h4, h5, h6⟩, hd, hz, hcrew⟩
  · exact ⟨⟨h1, h2, h3, h4, h5, h6⟩, hd, hz, hcrew⟩
  · have hfuel : 1 ≤ s.fuel := by
      by_cases ho : s.out_of_fuel = true
      · have : ¬ s.fuel ≤ 0 := fun hle => hof ⟨by simp [ho], hle⟩
        omega
      · have : ¬ s.fuel = 0 := fun hfz => ho (hz hfz)
        omega
    refine ⟨⟨h1, h2, h3, h4, h5, h6⟩, ?_, ?_, hcrew⟩
    · intro _
      simp only
      exact hfuel
    · intro hfz
      simp only at hfz
      omega

lemma inv_fix_engine (s : GState) (h : Inv s) : Inv (fix_engine s) := by
  obtain ⟨⟨h1, h2, h3, h4, h5, h6⟩, hd, hz, hcrew⟩ := h
  unfold fix_engine
  split_ifs with hdes hnl hnb hp
  · exact ⟨⟨h1, h2, h3, h4, h5, h6⟩, hd, hz, hcrew⟩
  · exact ⟨⟨h1, h2, h3, h4, h5, h6⟩, hd, hz, hcrew⟩
  · exact ⟨⟨h1, h2, h3, h4, by simp only; omega, h6⟩, hd, hz, hcrew⟩
  · exact ⟨⟨h1, h2, h3, h4, h5, h6⟩, hd, hz, hcrew⟩
  · exact ⟨⟨h1, h2, h3, h4, h5, h6⟩, hd, hz, hcrew⟩

lemma inv_on_canvas_click (v : View) (button : ℕ) (hit : ℕ → Bool)
    (s : GState) (h : Inv s) : Inv (on_canvas_click v button hit s) := by
  obtain ⟨⟨h1, h2, h3, h4, h5, h6⟩, hd, hz, hcrew⟩ := h
  have hInv : Inv s := ⟨⟨h1, h2, h3, h4, h5, h6⟩, hd, hz, hcrew⟩
  simp only [on_canvas_click]
  by_cases hdes : s.destroyed = true
  · rw [if_pos hdes]
    exact hInv
  rw [if_neg hdes]
  by_cases hnl : s.level_active = true
  · rw [if_neg (by simp [hnl])]
    split
    · exact hInv
    · split
      · split_ifs with ha
        · exact hInv
        · refine ⟨⟨h1, h2, h3, h4, h5, ?_⟩, hd, hz, hcrew⟩
          simp only
          norm_num [MG_AMMO_COST] at ha ⊢
          omega
      · split_ifs with hb1 hs0 hb3 ha
        · exact hInv
        · refine ⟨⟨h1, by simp only; omega, h3, h4, h5, h6⟩, hd, hz, hcrew⟩
        · exact hInv
        · refine ⟨⟨h1, h2, h3, h4, h5, ?_⟩, hd, hz, hcrew⟩
          simp only
          norm_num [MG_AMMO_COST] at ha ⊢
          omega
        · exact hInv
  · rw [if_pos (by simpa using hnl)]
    exact hInv

lemma inv_scavenge (a : Approach) (g : Bool) (d : ScavDraws) (s : GState)
    (hd : validScavDraws d) (h : Inv s) :
    Inv (scavenge_command a g d s) := by
  obtain ⟨⟨h1, h2, h3, h4, h5, h6⟩, hdr, hz, hcrew⟩ := h
  unfold scavenge_command
  split_ifs with hdes hnl hc0
  · exact ⟨⟨h1, h2, h3, h4, h5, h6⟩, hdr, hz, hcrew⟩
  · exact ⟨⟨h1, h2, h3, h4, h5, h6⟩, hdr, hz, hcrew⟩
  rotate_right
  · exact ⟨⟨h1, h2, h3, h4, h5, h6⟩, hdr, hz, hcrew⟩
  · by_cases hs : d.draw < scavChance a s.level_zombies g s.guns
    · rw [resolve_scavenge_survive a g d s hs]
      have hgain : 0 ≤ ((List.range
          (gotCounts a d.frac0 d.pickIdx s.sprites).2.2.1).map d.yields).sum :=
        fuelGained_nonneg d.yields (fun i => (hd.2.2.2.2 i).1) _
      refine ⟨⟨?_, ?_, h3, h4, ?_, ?_⟩, ?_, ?_, ?_⟩
      · simp only
        omega
      · simp only
        omega
      · simp only
        omega
      · simp only
        have : (0 : ℤ) ≤ ((gotCounts a d.frac0 d.pickIdx s.sprites).2.2.2 : ℤ) *
            AMMO_PER_BOX := by
          norm_num [AMMO_PER_BOX]
        omega
      · intro hdrv
        simp only at hdrv ⊢
        have := hdr hdrv
        omega
      · intro hfz
        simp only at hfz ⊢
        have : s.fuel = 0 := by omega
        exact hz this
      · intro hcz
        simp only at hcz ⊢
        exact hcrew hcz
    · rw [resolve_scavenge_die a g d s hs]
      split_ifs with hcz hg hg2
      · exact ⟨⟨h1, h2, by simp only; omega, by simp only; omega, h5, h6⟩,
          fun hdrv => hdr hdrv, fun hfz => hz hfz, fun _ => rfl⟩
      · exact ⟨⟨h1, h2, h3, by simp only; omega, h5, h6⟩,
          fun hdrv => hdr hdrv, fun hfz => hz hfz, fun _ => rfl⟩
      · refine ⟨⟨h1, h2, by simp only; omega, by simp only; omega, h5, h6⟩,
          fun hdrv => hdr hdrv, fun hfz => hz hfz, ?_⟩
        intro hx
        simp only at hx
        exact absurd hx (by omega)
      · refine ⟨⟨h1, h2, h3, by simp only; omega, h5, h6⟩,
          fun hdrv => hdr hdrv, fun hfz => hz hfz, ?_⟩
        intro hx
        simp only at hx
        exact absurd hx (by omega)

lemma inv_step {s t : GState} (h : Inv s) (hst : Step s t) : Inv t := by
  cases hst with
  | tick r hr => exact inv_fuel_tick r s h
  | stop r hr => exact inv_driver_stop r s h
  | breakdown r hr => exact inv_breakdownFire r s h
  | start => exact inv_driver_start s h
  | fixEngineStep => exact inv_fix_engine s h
  | shoot v button hit => exact inv_on_canvas_click v button hit s h
  | scav a g d hd => exact inv_scavenge a g d s hd h

lemma inv_init : Inv initState := by
  refine ⟨⟨?_, ?_, ?_, ?_, ?_, ?_⟩, ?_, ?_, ?_⟩ <;>
    simp [initState, LedgerOk]

lemma inv_reachable {s : GState} (h : Reachable s) : Inv s := by
  unfold Reachable at h
  induction h with
  | refl => exact inv_init
  | tail _ hstep ih => exact inv_step ih hstep

lemma scavenge_command_eq (a : Approach) (g : Bool) (d : ScavDraws)
    (s : GState) (h1 : s.destroyed = false) (h2 : s.level_active = true)
    (h3 : 0 < s.crew) :
    scavenge_command a g d s = resolve_scavenge a g d s := by
  simp [scavenge_command, h1, h2, show ¬ s.crew ≤ 0 by omega]

lemma scavChance_le_max (a : Approach) (z : ℤ) (g : Bool) (guns : ℤ) :
    scavChance a z g guns ≤ 95 / 100 := by
  simp only [scavChance]
  exact le_trans (clampQ_le _ _ _ (by norm_num [CHANCE_MIN, CHANCE_MAX]))
    (by norm_num [CHANCE_MAX])

lemma min_le_scavChance (a : Approach) (z : ℤ) (g : Bool) (guns : ℤ) :
    5 / 100 ≤ scavChance a z g guns := by
  simp only [scavChance]
  exact le_trans (by norm_num [CHANCE_MIN]) (le_clampQ _ _ _)

lemma failDraws_never_survives (a : Approach) (z : ℤ) (g : Bool)
    (guns : ℤ) : ¬ failDraws.draw < scavChance a z g guns := by
  intro hlt
  have hle := scavChance_le_max a z g guns
  simp only [failDraws] at hlt
  norm_num at hlt
  linarith

lemma luckyDraws_always_survives (a : Approach) (z : ℤ) (g : Bool)
    (guns : ℤ) : luckyDraws.draw < scavChance a z g guns := by
  have hge := min_le_scavChance a z g guns
  simp only [luckyDraws]
  norm_num
  linarith

lemma scav_fail_step (s : GState) (hds : s.destroyed = false)
    (hla : s.level_active = true) (hcrew : 2 ≤ s.crew) :
    scavenge_command .quick false failDraws s = { s with crew := s.crew - 1 } := by
  rw [scavenge_command_eq _ _ _ _ hds hla (by omega),
    resolve_scavenge_die _ _ _ _ (failDraws_never_survives _ _ _ _)]
  rw [if_neg (by omega : ¬ s.crew - 1 ≤ 0)]
  simp

lemma scav_fail_last (s : GState) (hds : s.destroyed = false)
    (hla : s.level_active = true) (hcrew : s.crew = 1) :
    scavenge_command .quick false failDraws s =
      { s with crew := 0, destroyed := true } := by
  rw [scavenge_command_eq _ _ _ _ hds hla (by omega),
    resolve_scavenge_die _ _ _ _ (failDraws_never_survives _ _ _ _)]
  rw [if_pos (by omega : s.crew - 1 ≤ 0)]
  simp [hcrew]

lemma gs2_eq : gs2 = { stoppedState with crew := 3 } := by
  rw [gs2, scav_fail_step stoppedState (by decide) (by decide) (by decide)]
  decide

lemma gs3_eq : gs3 = { stoppedState with crew := 2 } := by
  rw [gs3, gs2_eq, scav_fail_step _ (by decide) (by decide) (by decide)]
  decide

lemma gs4_eq : gs4 = { stoppedState with crew := 1 } := by
  rw [gs4, gs3_eq, scav_fail_step _ (by decide) (by decide) (by decide)]
  decide

lemma gs5_eq : gs5 = { stoppedState with crew := 0, destroyed := true } := by
  rw [gs5, gs4_eq, scav_fail_last _ (by decide) (by decide) (by decide)]

lemma validLevelRng_tickRng : validLevelRng tickRng := by
  refine ⟨?_, ?_, ?_, ?_, ?_, ?_, ?_, ?_, ?_, ?_⟩ <;> decide

lemma validScavDraws_failDraws : validScavDraws failDraws := by
  refine ⟨by norm_num [failDraws], by norm_num [failDraws],
    by norm_num [failDraws], by norm_num [failDraws], ?_⟩
  intro i
  constructor <;> norm_num [failDraws, FUEL_CAN_MIN, FUEL_CAN_MAX]

lemma validScavDraws_luckyDraws : validScavDraws luckyDraws := by
  refine ⟨by norm_num [luckyDraws], by norm_num [luckyDraws],
    by norm_num [luckyDraws], by norm_num [luckyDraws], ?_⟩
  intro i
  constructor <;> norm_num [luckyDraws, FUEL_CAN_MIN, FUEL_CAN_MAX]

lemma reachable_stoppedState : Reachable stoppedState :=
  Relation.ReflTransGen.tail Relation.ReflTransGen.refl
    (Step.stop initState tickRng validLevelRng_tickRng)

lemma reachable_gs5 : Reachable gs5 :=
  Relation.ReflTransGen.tail
    (Relation.ReflTransGen.tail
      (Relation.ReflTransGen.tail
        (Relation.ReflTransGen.tail reachable_stoppedState
          (Step.scav stoppedState .quick false failDraws
            validScavDraws_failDraws))
        (Step.scav gs2 .quick false failDraws validScavDraws_failDraws))
      (Step.scav gs3 .quick false failDraws validScavDraws_failDraws))
    (Step.scav gs4 .quick false failDraws validScavDraws_failDraws)

lemma reachable_fuel_tick_iter (n : ℕ) :
    Reachable ((fuel_tick tickRng)^[n] initState) := by
  induction n with
  | zero => exact Relation.ReflTransGen.refl
  | succ n ih =>
    rw [Function.iterate_succ_apply']
    exact Relation.ReflTransGen.tail ih
      (Step.tick _ tickRng validLevelRng_tickRng)

/-- Claim C2: for every scavenge invocation the survival chance computed by
the code equals the spec formula
clamp(base - zombies * 0.05 + (0.15 if gun committed and guns > 0 else 0),
0.05, 0.95), where base is 0.75 / 0.50 / 0.33 for Quick / Moderate /
Greedy; in particular it always lies within [0.05, 0.95]. -/
theorem C2_scavenge_chance_formula (a : Approach) (z : ℤ) (g : Bool)
    (guns : ℤ) :
    scavChance a z g guns = specChanceFormula a z g guns ∧
    5 / 100 ≤ scavChance a z g guns ∧ scavChance a z g guns ≤ 95 / 100 := by
  refine ⟨?_, min_le_scavChance a z g guns, scavChance_le_max a z g guns⟩
  simp only [scavChance, specChanceFormula, ZOMBIE_PENALTY_PER_ZOMBIE,
    GUN_BONUS, CHANCE_MIN, CHANCE_MAX]
  congr 1
  split_ifs with h
  · ring
  · ring

/-- Claim C9: every loot pool produced at the start of a level has at least
one part - both the pool counter and the number of placed part sprites -
for every random draw and every level-start reason. -/
theorem C9_pool_parts_at_least_one (reason : Reason) (r : LevelRng)
    (s : GState) :
    1 ≤ (start_level reason r s).level_parts ∧
    1 ≤ countAll .part (start_level reason r s).sprites := by
  constructor
  · simp only [start_level]
    exact le_max_left 1 r.rParts
  · simp only [start_level, populate_outside_sprites]
    rw [countAll_placeCount, countAll_placeCount, countAll_placeCount,
      countAll_placeCount, countAll_placeCount]
    have hmax : 1 ≤ max 1 r.rParts := le_max_left 1 r.rParts
    simp [countAll, countK]

/-- Claim C6: fix_engine succeeds exactly when a level is active, the
engine is broken and at least one part is held; then it debits exactly one
part and clears engine_broken without resuming driving.  In every other
case (no active level, engine not broken, or no parts - in particular
parts = 0 on a breakdown level) it leaves the state unchanged. -/
theorem C6_fix_engine_contract (s : GState) :
    (s.destroyed = false → s.level_active = true → s.engine_broken = true →
      1 ≤ s.parts →
      fix_engine s =
        { s with parts := s.parts - 1, engine_broken := false }) ∧
    (s.level_active = false ∨ s.engine_broken = false ∨ s.parts ≤ 0 →
      fix_engine s = s) := by
  constructor
  · intro hde hla heb hp
    simp [fix_engine, hde, hla, heb, show ¬ s.parts ≤ 0 by omega]
  · intro hfail
    simp only [fix_engine]
    split_ifs with hdes hla2 heb2 hp2
    · rfl
    · rfl
    · rcases hfail with h | h | h
      · exact absurd hla2 (by simp [h])
      · exact absurd heb2 (by simp [h])
      · exact absurd h hp2
    · rfl
    · rfl

/-- Witness for C6: the repair succeeds on the concrete breakdown level
with one part, and fails leaving the state unchanged when parts = 0. -/
theorem C6_fix_engine_contract_witness :
    breakdownState.destroyed = false ∧ breakdownState.level_active = true ∧
    breakdownState.engine_broken = true ∧ 1 ≤ breakdownState.parts ∧
    fix_engine breakdownState =
      { breakdownState with
        parts := breakdownState.parts - 1
        engine_broken := false } ∧
    breakdownNoParts.parts ≤ 0 ∧
    fix_engine breakdownNoParts = breakdownNoParts :=
  ⟨rfl, rfl, rfl, by decide,
    (C6_fix_engine_contract breakdownState).1 rfl rfl rfl (by decide),
    by decide,
    (C6_fix_engine_contract breakdownNoParts).2 (Or.inr (Or.inr (by decide)))⟩

/-- Claim C4: requesting a gun with guns = 0 silently degrades to an
unarmed scavenge (identical outcome, guns counter untouched); with
guns > 0 the committed gun is returned on survival (net unchanged) and
lost on death (exactly one fewer). -/
theorem C4_gun_commitment (a : Approach) (d : ScavDraws) (s : GState)
    (h1 : s.destroyed = false) (h2 : s.level_active = true)
    (h3 : 0 < s.crew) :
    (s.guns = 0 →
      scavenge_command a true d s = scavenge_command a false d s ∧
      (scavenge_command a true d s).guns = s.guns) ∧
    (0 < s.guns →
      (d.draw < scavChance a s.level_zombies true s.guns →
        (scavenge_command a true d s).guns = s.guns) ∧
      (¬ d.draw < scavChance a s.level_zombies true s.guns →
        (scavenge_command a true d s).guns = s.guns - 1)) := by
  rw [scavenge_command_eq a true d s h1 h2 h3,
    scavenge_command_eq a false d s h1 h2 h3]
  constructor
  · intro hg0
    constructor
    · norm_num [resolve_scavenge, scavChance, hg0]
    · by_cases hs : d.draw < scavChance a s.level_zombies true s.guns
      · rw [resolve_scavenge_survive a true d s hs]
      · rw [resolve_scavenge_die a true d s hs]
        split_ifs with hcz hgg hgg2
        · exact absurd hgg.2 (by omega)
        · rfl
        · exact absurd hgg2.2 (by omega)
        · rfl
  · intro hgp
    constructor
    · intro hs
      rw [resolve_scavenge_survive a true d s hs]
    · intro hs
      rw [resolve_scavenge_die a true d s hs]
      split_ifs with hcz hgg hgg2
      · rfl
      · exact absurd (⟨rfl, hgp⟩ : (true : Bool) ∧ 0 < s.guns) hgg
      · rfl
      · exact absurd (⟨rfl, hgp⟩ : (true : Bool) ∧ 0 < s.guns) hgg2

/-- Witness for C4: the silent fallback on the concrete gunless level, and
both outcomes of a committed gun on the concrete breakdown level. -/
theorem C4_gun_commitment_witness :
    gunlessState.destroyed = false ∧ gunlessState.level_active = true ∧
    0 < gunlessState.crew ∧ gunlessState.guns = 0 ∧
    (scavenge_command .quick true failDraws gunlessState =
      scavenge_command .quick false failDraws gunlessState) ∧
    0 < breakdownState.guns ∧
    (scavenge_command .quick true luckyDraws breakdownState).guns =
      breakdownState.guns ∧
    (scavenge_command .quick true failDraws breakdownState).guns =
      breakdownState.guns - 1 :=
  ⟨rfl, rfl, by decide, by decide,
    ((C4_gun_commitment .quick failDraws gunlessState rfl rfl
      (by decide)).1 (by decide)).1,
    by decide,
    ((C4_gun_commitment .quick luckyDraws breakdownState rfl rfl
      (by decide)).2 (by decide)).1
      (luckyDraws_always_survives _ _ _ _),
    ((C4_gun_commitment .quick failDraws breakdownState rfl rfl
      (by decide)).2 (by decide)).2
      (failDraws_never_survives _ _ _ _)⟩

/-- Claim C10: on every scavenge failure the loot pool (sprite lists and
pool counters) and the fuel, shells, parts and ammo ledger counters are
unchanged; the only changes are crew going down by exactly one and, when a
gun was committed, guns going down by exactly one. -/
theorem C10_scavenge_failure_frame (a : Approach) (g : Bool) (d : ScavDraws)
    (s : GState) (h1 : s.destroyed = false) (h2 : s.level_active = true)
    (h3 : 0 < s.crew)
    (hfail : ¬ d.draw < scavChance a s.level_zombies g s.guns) :
    (scavenge_command a g d s).fuel = s.fuel ∧
    (scavenge_command a g d s).shells = s.shells ∧
    (scavenge_command a g d s).parts = s.parts ∧
    (scavenge_command a g d s).ammo = s.ammo ∧
    (scavenge_command a g d s).sprites = s.sprites ∧
    (scavenge_command a g d s).level_zombies = s.level_zombies ∧
    (scavenge_command a g d s).crew = s.crew - 1 ∧
    (scavenge_command a g d s).guns =
      (if g ∧ 0 < s.guns then s.guns - 1 else s.guns) := by
  rw [scavenge_command_eq a g d s h1 h2 h3,
    resolve_scavenge_die a g d s hfail]
  split_ifs with hcz hgg hgg2 <;>
    exact ⟨rfl, rfl, rfl, rfl, rfl, rfl, rfl, rfl⟩

/-- Witness for C10: a failed unarmed Quick scavenge on the concrete
breakdown level touches only the crew counter. -/
theorem C10_scavenge_failure_frame_witness :
    breakdownState.destroyed = false ∧ breakdownState.level_active = true ∧
    0 < breakdownState.crew ∧
    (scavenge_command .quick false failDraws breakdownState).fuel =
      breakdownState.fuel ∧
    (scavenge_command .quick false failDraws breakdownState).sprites =
      breakdownState.sprites ∧
    (scavenge_command .quick false failDraws breakdownState).crew =
      breakdownState.crew - 1 :=
  ⟨rfl, rfl, by decide,
    (C10_scavenge_failure_frame .quick false failDraws breakdownState rfl rfl
      (by decide) (failDraws_never_survives _ _ _ _)).1,
    (C10_scavenge_failure_frame .quick false failDraws breakdownState rfl rfl
      (by decide) (failDraws_never_survives _ _ _ _)).2.2.2.2.1,
    (C10_scavenge_failure_frame .quick false failDraws breakdownState rfl rfl
      (by decide) (failDraws_never_survives _ _ _ _)).2.2.2.2.2.2.1⟩

/-- Claim C7: in every reachable state with an active level and an empty
fuel tank the start command is rejected and changes nothing, regardless of
the engine state and of the reason the level started.  (The code only
tests fuel when the out_of_fuel flag is set, but in every reachable state
fuel = 0 forces that flag, so the rejection is unconditional.) -/
theorem C7_start_rejected_without_fuel (s : GState) (hr : Reachable s)
    (_hl : s.level_active = true) (hf : s.fuel = 0) :
    driver_start s = s := by
  obtain ⟨⟨hf0, -, -, -, -, -⟩, hd, hz, -⟩ := inv_reachable hr
  have hoof : s.out_of_fuel = true := hz hf
  simp only [driver_start]
  split_ifs with hh1 hh2 hh3 hh4
  · rfl
  · rfl
  · rfl
  · rfl
  · exact absurd ⟨hoof, by omega⟩ hh4

set_option maxRecDepth 8000 in
/-- Witness for C7 (Scenario A of the spec): 200 fuel ticks from the fresh
game reach the OutOfFuel level with fuel = 0, where the start command is
rejected. -/
theorem C7_start_rejected_without_fuel_witness :
    ((fuel_tick tickRng)^[200] initState).level_active = true ∧
    ((fuel_tick tickRng)^[200] initState).fuel = 0 ∧
    driver_start ((fuel_tick tickRng)^[200] initState) =
      (fuel_tick tickRng)^[200] initState :=
  ⟨by decide, by decide,
    C7_start_rejected_without_fuel _ (reachable_fuel_tick_iter 200)
      (by decide) (by decide)⟩

/-- Claim C8: whenever the crew counter reaches zero the session is
destroyed (terminal game over), and from a destroyed session no command -
tick, stop, breakdown, start, fix, shoot or scavenge - changes anything. -/
theorem C8_game_over_terminal :
    (∀ s : GState, Reachable s → s.crew = 0 → s.destroyed = true) ∧
    (∀ s : GState, s.destroyed = true →
      (∀ r, fuel_tick r s = s) ∧ (∀ r, driver_stop r s = s) ∧
      (∀ r, breakdownFire r s = s) ∧ driver_start s = s ∧
      fix_engine s = s ∧
      (∀ v button hit, on_canvas_click v button hit s = s) ∧
      (∀ a g d, scavenge_command a g d s = s)) := by
  constructor
  · intro s hr hc
    exact (inv_reachable hr).2.2.2 hc
  · intro s hdes
    refine ⟨fun r => ?_, fun r => ?_, fun r => ?_, ?_, ?_,
      fun v button hit => ?_, fun a g d => ?_⟩ <;>
      simp [fuel_tick, driver_stop, breakdownFire, driver_start, fix_engine,
        on_canvas_click, scavenge_command, hdes]

/-- Witness for C8: the concrete doomed run (stop, then four failed
scavenges) reaches crew = 0; the theorem gives the destroyed flag, and the
mutating commands leave that state untouched. -/
theorem C8_game_over_terminal_witness :
    gs5.crew = 0 ∧ gs5.destroyed = true ∧ fix_engine gs5 = gs5 ∧
    driver_start gs5 = gs5 ∧
    (∀ a g d, scavenge_command a g d gs5 = gs5) :=
  ⟨by rw [gs5_eq], C8_game_over_terminal.1 gs5 reachable_gs5 (by rw [gs5_eq]),
    (C8_game_over_terminal.2 gs5 (by rw [gs5_eq])).2.2.2.2.1,
    (C8_game_over_terminal.2 gs5 (by rw [gs5_eq])).2.2.2.1,
    (C8_game_over_terminal.2 gs5 (by rw [gs5_eq])).2.2.2.2.2.2⟩

/-- Claim C1 (code bug in v5): shooting the zombie visible in the left
gunner view of the reachable state `stoppedState` deletes the zombie
sprite and debits the shell, but `level_zombies` - the aggregate counter
that `resolve_scavenge` reads for the scavenge chance - stays at 1, so the
aggregate no longer equals the sum of per-vantage alive zombies (which is
now 0). -/
theorem C1_shoot_leaves_aggregate_counter :
    Reachable stoppedState ∧
    stoppedState.level_zombies = 1 ∧
    countAll .zombie stoppedState.sprites = 1 ∧
    c1After.shells = stoppedState.shells - 1 ∧
    countAll .zombie c1After.sprites = 0 ∧
    c1After.level_zombies = 1 :=
  ⟨reachable_stoppedState, by decide, by decide, by decide, by decide,
    by decide⟩

/-- Claim C3: in every reachable state the six ledger counters are
non-negative and driving implies fuel in the tank (so the fuel-burn debit
never overdraws), and every debit whose amount exceeds the balance -
cannon shell, machine-gun ammo, repair part, scavenging crew member,
committed gun - is rejected, leaving the state (or the debited counter)
unchanged. -/
theorem C3_ledger_nonneg_and_debits_guarded :
    (∀ s : GState, Reachable s → LedgerOk s) ∧
    (∀ s : GState, Reachable s → s.driving = true → 1 ≤ s.fuel) ∧
    (∀ (s : GState) (v : View) (hit : ℕ → Bool), v ≠ View.outDriver →
      s.shells ≤ 0 → on_canvas_click v 1 hit s = s) ∧
    (∀ (s : GState) (button : ℕ) (hit : ℕ → Bool), s.ammo < MG_AMMO_COST →
      on_canvas_click View.outDriver button hit s = s) ∧
    (∀ (s : GState) (v : View) (hit : ℕ → Bool), s.ammo < MG_AMMO_COST →
      on_canvas_click v 3 hit s = s) ∧
    (∀ s : GState, s.parts ≤ 0 → fix_engine s = s) ∧
    (∀ (s : GState) (a : Approach) (g : Bool) (d : ScavDraws),
      s.crew ≤ 0 → scavenge_command a g d s = s) ∧
    (∀ (s : GState) (a : Approach) (g : Bool) (d : ScavDraws),
      s.guns ≤ 0 → (scavenge_command a g d s).guns = s.guns) := by
  refine ⟨fun s hr => (inv_reachable hr).1,
    fun s hr => (inv_reachable hr).2.1, ?_, ?_, ?_, ?_, ?_, ?_⟩
  · intro s v hit hv hsh
    cases v
    · exact absurd rfl hv
    · simp only [on_canvas_click]
      split_ifs with hh1 hh2 <;> try rfl
      split
      · rfl
      · simp [hsh]
    · simp only [on_canvas_click]
      split_ifs with hh1 hh2 <;> try rfl
      split
      · rfl
      · simp [hsh]
  · intro s button hit ha
    simp only [on_canvas_click]
    split_ifs with hh1 hh2 <;> try rfl
    split
    · rfl
    · simp [ha]
  · intro s v hit ha
    cases v
    · simp only [on_canvas_click]
      split_ifs with hh1 hh2 <;> try rfl
      split
      · rfl
      · simp [ha]
    · simp only [on_canvas_click]
      split_ifs with hh1 hh2 <;> try rfl
      all_goals
        first
          | exact absurd (by assumption : (3 : ℕ) = 1) (by omega)
          | (split <;> rfl)
    · simp only [on_canvas_click]
      split_ifs with hh1 hh2 <;> try rfl
      all_goals
        first
          | exact absurd (by assumption : (3 : ℕ) = 1) (by omega)
          | (split <;> rfl)
  · intro s hp
    simp only [fix_engine]
    split_ifs <;> rfl
  · intro s a g d hc
    simp only [scavenge_command]
    split_ifs <;> rfl
  · intro s a g d hg
    simp only [scavenge_command]
    split_ifs with hh1 hh2 hh3 <;> try rfl
    have hnc : ¬ ((g : Bool) = true ∧ 0 < s.guns) := by
      rintro ⟨-, hlt⟩
      omega
    by_cases hs : d.draw < scavChance a s.level_zombies g s.guns
    · rw [resolve_scavenge_survive a g d s hs]
    · rw [resolve_scavenge_die a g d s hs]
      split_ifs <;> rfl

/-- Witness for C3: the fresh game's ledger is in range, and the concrete
rejections: firing the cannon with no shells, the machine gun with 10
ammo, fixing with no parts, scavenging with no crew, and committing a gun
with none left. -/
theorem C3_ledger_nonneg_and_debits_guarded_witness :
    LedgerOk initState ∧ (initState.driving = true → 1 ≤ initState.fuel) ∧
    brokeState.shells ≤ 0 ∧
    on_canvas_click View.outLeft 1 (fun _ => true) brokeState =
      brokeState ∧
    brokeState.ammo < MG_AMMO_COST ∧
    on_canvas_click View.outDriver 1 (fun _ => true) brokeState =
      brokeState ∧
    on_canvas_click View.outRight 3 (fun _ => true) brokeState =
      brokeState ∧
    brokeState.parts ≤ 0 ∧ fix_engine brokeState = brokeState ∧
    deadState.crew ≤ 0 ∧
    scavenge_command .quick false failDraws deadState = deadState ∧
    gunlessState.guns ≤ 0 ∧
    (scavenge_command .quick true failDraws gunlessState).guns =
      gunlessState.guns :=
  ⟨C3_ledger_nonneg_and_debits_guarded.1 initState Relation.ReflTransGen.refl,
    C3_ledger_nonneg_and_debits_guarded.2.1 initState
      Relation.ReflTransGen.refl,
    by decide,
    C3_ledger_nonneg_and_debits_guarded.2.2.1 brokeState View.outLeft
      (fun _ => true) (by decide) (by decide),
    by decide,
    C3_ledger_nonneg_and_debits_guarded.2.2.2.1 brokeState 1
      (fun _ => true) (by decide),
    C3_ledger_nonneg_and_debits_guarded.2.2.2.2.1 brokeState View.outRight
      (fun _ => true) (by decide),
    by decide,
    C3_ledger_nonneg_and_debits_guarded.2.2.2.2.2.1 brokeState (by decide),
    by decide,
    C3_ledger_nonneg_and_debits_guarded.2.2.2.2.2.2.1 deadState .quick false
      failDraws (by decide),
    by decide,
    C3_ledger_nonneg_and_debits_guarded.2.2.2.2.2.2.2 gunlessState .quick
      true failDraws (by decide)⟩

/-- Claim C5: on every scavenge survival, for each kind the number of
sprites removed from the pool equals the loot count of that kind, and the
ledger is credited exactly those counts (fuel one yield per collected can,
ammo one box worth each); zombies are untouched, so nothing is
double-spent and nothing is credited that was not removed. -/
theorem C5_scavenge_loot_accounting (a : Approach) (g : Bool) (d : ScavDraws)
    (s : GState) (h1 : s.destroyed = false) (h2 : s.level_active = true)
    (h3 : 0 < s.crew) (hf0 : 0 ≤ d.frac0) (hf1 : d.frac0 < 1)
    (hsv : d.draw < scavChance a s.level_zombies g s.guns) :
    countAll .part s.sprites =
      countAll .part (scavenge_command a g d s).sprites +
        (gotCounts a d.frac0 d.pickIdx s.sprites).1 ∧
    (scavenge_command a g d s).parts =
      s.parts + ((gotCounts a d.frac0 d.pickIdx s.sprites).1 : ℤ) ∧
    countAll .shell s.sprites =
      countAll .shell (scavenge_command a g d s).sprites +
        (gotCounts a d.frac0 d.pickIdx s.sprites).2.1 ∧
    (scavenge_command a g d s).shells =
      s.shells + ((gotCounts a d.frac0 d.pickIdx s.sprites).2.1 : ℤ) ∧
    countAll .fuel s.sprites =
      countAll .fuel (scavenge_command a g d s).sprites +
        (gotCounts a d.frac0 d.pickIdx s.sprites).2.2.1 ∧
    (scavenge_command a g d s).fuel =
      s.fuel +
        ((List.range (gotCounts a d.frac0 d.pickIdx s.sprites).2.2.1).map
          d.yields).sum ∧
    countAll .ammo s.sprites =
      countAll .ammo (scavenge_command a g d s).sprites +
        (gotCounts a d.frac0 d.pickIdx s.sprites).2.2.2 ∧
    (scavenge_command a g d s).ammo =
      s.ammo +
        ((gotCounts a d.frac0 d.pickIdx s.sprites).2.2.2 : ℤ) *
          AMMO_PER_BOX ∧
    countAll .zombie (scavenge_command a g d s).sprites =
      countAll .zombie s.sprites := by
  obtain ⟨hbp, hbs, hbf, hba⟩ :=
    gotCounts_le a d.frac0 d.pickIdx s.sprites hf0 hf1
  rw [scavenge_command_eq a g d s h1 h2 h3,
    resolve_scavenge_survive a g d s hsv]
  refine ⟨?_, rfl, ?_, rfl, ?_, rfl, ?_, rfl, ?_⟩
  · simp only
    rw [remove_items_other Kind.ammo Kind.part (by decide),
      remove_items_other Kind.fuel Kind.part (by decide),
      remove_items_other Kind.shell Kind.part (by decide),
      remove_items_exact Kind.part _ _ hbp]
    omega
  · simp only
    have hb2 : (gotCounts a d.frac0 d.pickIdx s.sprites).2.1 ≤
        countAll Kind.shell (remove_items_from_map Kind.part
          (gotCounts a d.frac0 d.pickIdx s.sprites).1 s.sprites) := by
      rw [remove_items_other Kind.part Kind.shell (by decide)]
      exact hbs
    rw [remove_items_other Kind.ammo Kind.shell (by decide),
      remove_items_other Kind.fuel Kind.shell (by decide),
      remove_items_exact Kind.shell _ _ hb2,
      remove_items_other Kind.part Kind.shell (by decide)]
    omega
  · simp only
    have hb3 : (gotCounts a d.frac0 d.pickIdx s.sprites).2.2.1 ≤
        countAll Kind.fuel (remove_items_from_map Kind.shell
          (gotCounts a d.frac0 d.pickIdx s.sprites).2.1
          (remove_items_from_map Kind.part
            (gotCounts a d.frac0 d.pickIdx s.sprites).1 s.sprites)) := by
      rw [remove_items_other Kind.shell Kind.fuel (by decide),
        remove_items_other Kind.part Kind.fuel (by decide)]
      exact hbf
    rw [remove_items_other Kind.ammo Kind.fuel (by decide),
      remove_items_exact Kind.fuel _ _ hb3,
      remove_items_other Kind.shell Kind.fuel (by decide),
      remove_items_other Kind.part Kind.fuel (by decide)]
    omega
  · simp only
    have hb4 : (gotCounts a d.frac0 d.pickIdx s.sprites).2.2.2 ≤
        countAll Kind.ammo (remove_items_from_map Kind.fuel
          (gotCounts a d.frac0 d.pickIdx s.sprites).2.2.1
          (remove_items_from_map Kind.shell
            (gotCounts a d.frac0 d.pickIdx s.sprites).2.1
            (remove_items_from_map Kind.part
              (gotCounts a d.frac0 d.pickIdx s.sprites).1 s.sprites))) := by
      rw [remove_items_other Kind.fuel Kind.ammo (by decide),
        remove_items_other Kind.shell Kind.ammo (by decide),
        remove_items_other Kind.part Kind.ammo (by decide)]
      exact hba
    rw [remove_items_exact Kind.ammo _ _ hb4,
      remove_items_other Kind.fuel Kind.ammo (by decide),
      remove_items_other Kind.shell Kind.ammo (by decide),
      remove_items_other Kind.part Kind.ammo (by decide)]
    omega
  · simp only
    rw [remove_items_other Kind.ammo Kind.zombie (by decide),
      remove_items_other Kind.fuel Kind.zombie (by decide),
      remove_items_other Kind.shell Kind.zombie (by decide),
      remove_items_other Kind.part Kind.zombie (by decide)]

/-- Witness for C5: a surviving Greedy scavenge with loot fraction one
half on the concrete breakdown level removes exactly the loot counts from
the pool and credits exactly them to the ledger. -/
theorem C5_scavenge_loot_accounting_witness :
    breakdownState.destroyed = false ∧ breakdownState.level_active = true ∧
    0 < breakdownState.crew ∧ 0 ≤ luckyDraws.frac0 ∧ luckyDraws.frac0 < 1 ∧
    countAll .part breakdownState.sprites =
      countAll .part
          (scavenge_command .greedy false luckyDraws breakdownState).sprites +
        (gotCounts .greedy luckyDraws.frac0 luckyDraws.pickIdx
          breakdownState.sprites).1 ∧
    (scavenge_command .greedy false luckyDraws breakdownState).parts =
      breakdownState.parts +
        ((gotCounts .greedy luckyDraws.frac0 luckyDraws.pickIdx
          breakdownState.sprites).1 : ℤ) ∧
    countAll .zombie
        (scavenge_command .greedy false luckyDraws breakdownState).sprites =
      countAll .zombie breakdownState.sprites :=
  ⟨rfl, rfl, by decide, by norm_num [luckyDraws], by norm_num [luckyDraws],
    (C5_scavenge_loot_accounting .greedy false luckyDraws breakdownState rfl
      rfl (by decide) (by norm_num [luckyDraws]) (by norm_num [luckyDraws])
      (luckyDraws_always_survives _ _ _ _)).1,
    (C5_scavenge_loot_accounting .greedy false luckyDraws breakdownState rfl
      rfl (by decide) (by norm_num [luckyDraws]) (by norm_num [luckyDraws])
      (luckyDraws_always_survives _ _ _ _)).2.1,
    (C5_scavenge_loot_accounting .greedy false luckyDraws breakdownState rfl
      rfl (by decide) (by norm_num [luckyDraws]) (by norm_num [luckyDraws])
      (luckyDraws_always_survives _ _ _ _)).2.2.2.2.2.2.2.2⟩

end TankSurvival
